import Mathlib

/-!
Shallow embedding of the `fungible-ics20-ics20-conversion` contract
(`src/contract.rs`, `src/error.rs`, `src/state.rs`).

Modelling conventions:
- Rust `u128` values are `Nat`; the unchecked `u128` arithmetic of
  `calculate_token_conversion_output` is modelled with an explicit
  `% 2^128` at each multiplication (Rust release-profile wrapping
  semantics; `u128` division cannot overflow).
- Rust `i32` values are `Int`; the unchecked `i32` addition in
  `try_increment` is modelled with an explicit two's-complement wrap.
- `cosmwasm_std::Uint128` fund amounts are `Nat`; `Uint128` addition is
  checked (it aborts rather than wraps), so the fund sum is the exact sum.
- Storage access is explicit state passing: each entry point takes the
  stored `State` and returns the post-state next to its `Response`; an
  error carries no post-state (the host rolls back on failure), which
  `state_after` makes explicit.
-/

namespace Ics20Conversion

def U128_MOD : Nat := 2 ^ 128

def I32_MOD : Int := 2 ^ 32

/-- Two's-complement wrap of an `i32` addition result. -/
def wrap_i32 (n : Int) : Int := (n + 2 ^ 31) % I32_MOD - 2 ^ 31

/-- `cosmwasm_std::Coin`: a denom together with a `Uint128` amount. -/
structure Coin where
  denom : String
  amount : Nat
deriving DecidableEq, Repr

/-- `cosmwasm_std::MessageInfo`: the caller and the tendered funds. -/
structure MessageInfo where
  sender : String
  funds : List Coin
deriving DecidableEq, Repr

/-- `src/state.rs`: the persistent configuration record. -/
structure State where
  count : Int
  owner : String
  dest_ic20_denom : String
  dest_ic20_decimals : Nat
  src_ic20_denom : String
  src_ic20_decimals : Nat
deriving DecidableEq, Repr

/-- Minimal stand-in for `cosmwasm_std::StdError` (never constructed by
the embedded code). -/
inductive StdError where
  | genericErr (msg : String)
deriving DecidableEq, Repr

/-- `src/error.rs`: the contract error enum. Note there is no
numeric-overflow variant. -/
inductive ContractError where
  | Std (e : StdError)
  | Unauthorized
  | IncorrectNativeDenom (provided required : String)
  | InsufficientFunds
  | InvalidFunds
deriving DecidableEq, Repr

/-- `cosmwasm_std::CosmosMsg`, restricted to the one variant the contract
emits: `BankMsg::Send`. -/
inductive CosmosMsg where
  | bankSend (to_address : String) (amount : List Coin)
deriving DecidableEq, Repr

/-- `cosmwasm_std::Response`: emitted messages and attributes. -/
structure Response where
  messages : List CosmosMsg
  attributes : List (String × String)
deriving DecidableEq, Repr

def Response.new : Response := ⟨[], []⟩

def Response.add_message (r : Response) (m : CosmosMsg) : Response :=
  { r with messages := r.messages ++ [m] }

def Response.add_attribute (r : Response) (k v : String) : Response :=
  { r with attributes := r.attributes ++ [(k, v)] }

/-- `msg.rs` response carrying the conversion result. -/
structure ConvertTokenResponse where
  amount : Nat
deriving DecidableEq, Repr

/-- `msg.rs` response of the `GetCount` query. -/
structure CountResponse where
  count : Int
deriving DecidableEq, Repr

/-- `get_whole_token_representation` (contract.rs:141-149): a loop
`whole_token *= 10` run `decimals` times, on a wrapping `u128`. -/
def get_whole_token_representation (decimals : Nat) : Nat :=
  (List.range decimals).foldl (fun whole_token _ => whole_token * 10 % U128_MOD) 1

/-- `calculate_token_conversion_output` (contract.rs:113-137). Every
`u128` multiplication wraps modulo `2^128`; the function never returns an
error. -/
def calculate_token_conversion_output (amount rate : Nat)
    ( input_decimals output_decimals : Nat) : Except StdError ConvertTokenResponse :=
  let result := amount * rate % U128_MOD
  let result :=
    if input_decimals < output_decimals then
      let compensation := get_whole_token_representation (output_decimals - input_decimals)
      result * compensation % U128_MOD
    else if output_decimals < input_decimals then
      let compensation := get_whole_token_representation (input_decimals - output_decimals)
      result / compensation
    else result
  let whole_token := get_whole_token_representation output_decimals
  let result := result / whole_token
  Except.ok ⟨result⟩

/-- `get_bank_transfer_to_msg` (contract.rs:151-162). -/
def get_bank_transfer_to_msg (recipient denom : String) (native_amount : Nat) : CosmosMsg :=
  CosmosMsg.bankSend recipient [⟨denom, native_amount⟩]

/-- `deposit_dest_tokens` (contract.rs:55-65): every tendered fund item
must use the destination denom; no state change. -/
def deposit_dest_tokens (state : State) (info : MessageInfo) :
    Except ContractError (State × Response) :=
  if ! info.funds.all (fun f => f.denom == state.dest_ic20_denom) then
    Except.error ContractError.InvalidFunds
  else
    Except.ok (state, Response.new)

/-- `convert_tokens` (contract.rs:67-103). -/
def convert_tokens (state : State) (info : MessageInfo) (src_token_amount : Nat) :
    Except ContractError (State × Response) :=
  let src_denom := state.src_ic20_denom
  if ! info.funds.all (fun f => f.denom == state.dest_ic20_denom) then
    Except.error ContractError.InvalidFunds
  else
    let received_src_token_amount : Nat :=
      ((info.funds.filter (fun c => c.denom == src_denom)).map (fun c => c.amount)).sum
    if received_src_token_amount ≠ src_token_amount then
      Except.error ContractError.InvalidFunds
    else
      match calculate_token_conversion_output received_src_token_amount
          (10 * state.dest_ic20_decimals)
          state.src_ic20_decimals state.dest_ic20_decimals with
      | Except.error e => Except.error (ContractError.Std e)
      | Except.ok out_token_amount =>
          let transfer_msg := get_bank_transfer_to_msg info.sender
            state.dest_ic20_denom out_token_amount.amount
          Except.ok (state, Response.new.add_message transfer_msg)

/-- `try_increment` (contract.rs:164-171): unconditional wrapping `i32`
increment of the counter. -/
def try_increment (state : State) : Except ContractError (State × Response) :=
  Except.ok ({ state with count := wrap_i32 (state.count + 1) },
    Response.new.add_attribute "method" "try_increment")

/-- `try_reset` (contract.rs:172-181): owner-gated counter overwrite. -/
def try_reset (state : State) (info : MessageInfo) (count : Int) :
    Except ContractError (State × Response) :=
  if info.sender ≠ state.owner then
    Except.error ContractError.Unauthorized
  else
    Except.ok ({ state with count := count },
      Response.new.add_attribute "method" "reset")

/-- `query_count` (contract.rs:190-193). -/
def query_count (state : State) : Except StdError CountResponse :=
  Except.ok ⟨state.count⟩

/-- The persistent state after an entry-point call: the returned state on
success, the unchanged pre-state on error (host-side rollback). -/
def state_after (s : State) (r : Except ContractError (State × Response)) : State :=
  match r with
  | Except.ok (s2, _) => s2
  | Except.error _ => s

/-- `try_increment` iterated `n` times, threading the persistent state. -/
def increment_n (state : State) : Nat → State
  | 0 => state
  | Nat.succ n => increment_n (state_after state (try_increment state)) n

/-! ### Helper lemmas -/

lemma gwtr_eq_pow (d : Nat) (h : 10 ^ d < U128_MOD) :
    get_whole_token_representation d = 10 ^ d := by
  induction d with
  | zero => rfl
  | succ n ih =>
      have hn : 10 ^ n < U128_MOD :=
        lt_of_le_of_lt (Nat.pow_le_pow_right (by norm_num) (Nat.le_succ n)) h
      rw [get_whole_token_representation, List.range_succ, List.foldl_append]
      rw [get_whole_token_representation] at ih
      rw [ih hn]
      simp only [List.foldl_cons, List.foldl_nil]
      rw [← pow_succ]
      exact Nat.mod_eq_of_lt h

lemma calc_is_ok (a r i o : Nat) :
    ∃ v, calculate_token_conversion_output a r i o = Except.ok v := ⟨_, rfl⟩

lemma calc_zero (rate din dout : Nat) :
    calculate_token_conversion_output 0 rate din dout = Except.ok ⟨0⟩ := by
  simp [calculate_token_conversion_output]

lemma convert_tokens_denom_fail (state : State) (info : MessageInfo) (amt : Nat)
    (hall : info.funds.all (fun f => f.denom == state.dest_ic20_denom) = false) :
    convert_tokens state info amt = Except.error ContractError.InvalidFunds := by
  simp [convert_tokens, hall]

lemma convert_tokens_sum_fail (state : State) (info : MessageInfo) (amt : Nat)
    (hall : info.funds.all (fun f => f.denom == state.dest_ic20_denom) = true)
    (hs : ((info.funds.filter (fun c => c.denom == state.src_ic20_denom)).map
      (fun c => c.amount)).sum ≠ amt) :
    convert_tokens state info amt = Except.error ContractError.InvalidFunds := by
  simp [convert_tokens, hall, hs]

lemma convert_tokens_ok (state : State) (info : MessageInfo) (amt : Nat)
    (hall : info.funds.all (fun f => f.denom == state.dest_ic20_denom) = true)
    (hs : ((info.funds.filter (fun c => c.denom == state.src_ic20_denom)).map
      (fun c => c.amount)).sum = amt)
    (out : ConvertTokenResponse)
    (hout : calculate_token_conversion_output amt (10 * state.dest_ic20_decimals)
      state.src_ic20_decimals state.dest_ic20_decimals = Except.ok out) :
    convert_tokens state info amt = Except.ok (state,
      Response.new.add_message (get_bank_transfer_to_msg info.sender
        state.dest_ic20_denom out.amount)) := by
  simp [convert_tokens, hall, hs, hout]

/-! ### Claims about the conversion engine -/

/-- Claim C1: when no intermediate product overflows 128 bits,
`calculate_token_conversion_output` computes `amount * rate`, compensates
for the decimal difference (multiplying by `10^(dout-din)` when
`din < dout`, floor-dividing by `10^(din-dout)` when `dout < din`), and
floor-divides by `10^dout`; with equal decimals the result is
`floor(amount * rate / 10^din)`. -/
theorem calc_matches_rescaling_formula (amount rate din dout : Nat)
    (hpow : 10 ^ max din dout < U128_MOD)
    (hprod : amount * rate < U128_MOD)
    (hcomp : din < dout → amount * rate * 10 ^ (dout - din) < U128_MOD) :
    calculate_token_conversion_output amount rate din dout =
      Except.ok ⟨(if din < dout then amount * rate * 10 ^ (dout - din)
          else if dout < din then amount * rate / 10 ^ (din - dout)
          else amount * rate) / 10 ^ dout⟩ ∧
    (din = dout →
      calculate_token_conversion_output amount rate din dout =
        Except.ok ⟨amount * rate / 10 ^ din⟩) := by
  have hdout : 10 ^ dout < U128_MOD :=
    lt_of_le_of_lt (Nat.pow_le_pow_right (by norm_num) (le_max_right din dout)) hpow
  have main : calculate_token_conversion_output amount rate din dout =
      Except.ok ⟨(if din < dout then amount * rate * 10 ^ (dout - din)
          else if dout < din then amount * rate / 10 ^ (din - dout)
          else amount * rate) / 10 ^ dout⟩ := by
    simp only [calculate_token_conversion_output]
    rw [gwtr_eq_pow dout hdout, Nat.mod_eq_of_lt hprod]
    split_ifs with h1 h2
    · have hd : 10 ^ (dout - din) < U128_MOD :=
        lt_of_le_of_lt (Nat.pow_le_pow_right (by norm_num)
          (le_trans (Nat.sub_le dout din) (le_max_right din dout))) hpow
      rw [gwtr_eq_pow _ hd, Nat.mod_eq_of_lt (hcomp h1)]
    · have hd : 10 ^ (din - dout) < U128_MOD :=
        lt_of_le_of_lt (Nat.pow_le_pow_right (by norm_num)
          (le_trans (Nat.sub_le din dout) (le_max_left din dout))) hpow
      rw [gwtr_eq_pow _ hd]
    · rfl
  refine ⟨main, fun he => ?_⟩
  subst he
  rw [main]
  simp

/-- Witness for C1 at `amount = 3000000, rate = 666666666, din = 6,
dout = 9`. -/
theorem calc_matches_rescaling_formula_witness :
    calculate_token_conversion_output 3000000 666666666 6 9 =
      Except.ok ⟨(if 6 < 9 then 3000000 * 666666666 * 10 ^ (9 - 6)
          else if 9 < 6 then 3000000 * 666666666 / 10 ^ (6 - 9)
          else 3000000 * 666666666) / 10 ^ 9⟩ :=
  (calc_matches_rescaling_formula 3000000 666666666 6 9 (by decide)
    (by decide) (fun _ => by decide)).1

/-- Claim C2 (code bug): at the overflowing input
`amount = 2^127, rate = 2`, the multiplication `amount * rate` wraps to 0
modulo `2^128` and the conversion returns `Ok 0` instead of signalling a
numeric-overflow failure; note `ContractError` has no numeric-overflow
variant at all. -/
theorem calc_overflow_wraps_silently :
    calculate_token_conversion_output (2 ^ 127) 2 0 0 = Except.ok ⟨0⟩ := by rfl

/-- Claim C3: the four concrete conversion scenarios of the spec. -/
theorem calc_concrete_scenarios :
    calculate_token_conversion_output 3000000000 666666666 9 9 = Except.ok ⟨1999999998⟩ ∧
    calculate_token_conversion_output 3000000 666666666 6 9 = Except.ok ⟨1999999998⟩ ∧
    calculate_token_conversion_output 3000000000 666666 9 6 = Except.ok ⟨1999998⟩ ∧
    calculate_token_conversion_output 3000000000000000000 1000000 18 6 = Except.ok ⟨3000000⟩ :=
  ⟨rfl, rfl, rfl, rfl⟩

/-! ### Claims about the guarded state machine -/

/-- Claim C4: whenever `convert_tokens` reaches the conversion step (both
funds validations pass), the rate handed to
`calculate_token_conversion_output` is the literal product
`10 * dest_ic20_decimals`, together with the stored source and
destination decimals. -/
theorem convert_tokens_uses_linear_rate (state : State) (info : MessageInfo) (amt : Nat)
    (hall : info.funds.all (fun f => f.denom == state.dest_ic20_denom) = true)
    (hsum : ((info.funds.filter (fun c => c.denom == state.src_ic20_denom)).map
      (fun c => c.amount)).sum = amt) :
    ∃ out, calculate_token_conversion_output amt (10 * state.dest_ic20_decimals)
        state.src_ic20_decimals state.dest_ic20_decimals = Except.ok out ∧
      convert_tokens state info amt = Except.ok (state,
        Response.new.add_message (get_bank_transfer_to_msg info.sender
          state.dest_ic20_denom out.amount)) := by
  obtain ⟨out, hout⟩ := calc_is_ok amt (10 * state.dest_ic20_decimals)
    state.src_ic20_decimals state.dest_ic20_decimals
  exact ⟨out, hout, convert_tokens_ok state info amt hall hsum out hout⟩

/-- Witness for C4 at a concrete state and an empty funds list. -/
theorem convert_tokens_uses_linear_rate_witness :
    ∃ out, calculate_token_conversion_output 0 (10 * 6) 9 6 = Except.ok out ∧
      convert_tokens ⟨0, "o", "d", 6, "s", 9⟩ ⟨"alice", []⟩ 0 =
        Except.ok (⟨0, "o", "d", 6, "s", 9⟩,
          Response.new.add_message (get_bank_transfer_to_msg "alice" "d" out.amount)) :=
  convert_tokens_uses_linear_rate ⟨0, "o", "d", 6, "s", 9⟩ ⟨"alice", []⟩ 0 rfl rfl

/-- Claim C5: once the denom check passes, `convert_tokens` fails with
`InvalidFunds` exactly when the sum of the source-denom fund amounts
differs from the declared amount, and succeeds (with no state change)
when the sum matches exactly. -/
theorem convert_tokens_sum_guard (state : State) (info : MessageInfo) (amt : Nat)
    (hall : info.funds.all (fun f => f.denom == state.dest_ic20_denom) = true) :
    (convert_tokens state info amt = Except.error ContractError.InvalidFunds ↔
      ((info.funds.filter (fun c => c.denom == state.src_ic20_denom)).map
        (fun c => c.amount)).sum ≠ amt) ∧
    (((info.funds.filter (fun c => c.denom == state.src_ic20_denom)).map
        (fun c => c.amount)).sum = amt →
      ∃ r, convert_tokens state info amt = Except.ok (state, r)) := by
  by_cases hs : ((info.funds.filter (fun c => c.denom == state.src_ic20_denom)).map
      (fun c => c.amount)).sum = amt
  · obtain ⟨out, hout⟩ := calc_is_ok amt (10 * state.dest_ic20_decimals)
      state.src_ic20_decimals state.dest_ic20_decimals
    have hok := convert_tokens_ok state info amt hall hs out hout
    constructor
    · constructor
      · intro herr
        rw [hok] at herr
        cases herr
      · intro hne
        exact absurd hs hne
    · intro _
      exact ⟨_, hok⟩
  · have herr := convert_tokens_sum_fail state info amt hall hs
    exact ⟨⟨fun _ => hs, fun _ => herr⟩, fun h => absurd h hs⟩

/-- Witness for C5 at a concrete state, a misdeclared amount, and a
matching amount. -/
theorem convert_tokens_sum_guard_witness :
    convert_tokens ⟨0, "o", "d", 6, "d", 9⟩ ⟨"alice", [⟨"d", 5⟩]⟩ 4 =
      Except.error ContractError.InvalidFunds ∧
    ∃ r, convert_tokens ⟨0, "o", "d", 6, "d", 9⟩ ⟨"alice", [⟨"d", 5⟩]⟩ 5 =
      Except.ok (⟨0, "o", "d", 6, "d", 9⟩, r) :=
  ⟨(convert_tokens_sum_guard ⟨0, "o", "d", 6, "d", 9⟩ ⟨"alice", [⟨"d", 5⟩]⟩ 4
      (by decide)).1.mpr (by decide),
   (convert_tokens_sum_guard ⟨0, "o", "d", 6, "d", 9⟩ ⟨"alice", [⟨"d", 5⟩]⟩ 5
      (by decide)).2 (by decide)⟩

/-- Claim C6: `deposit_dest_tokens` fails with `InvalidFunds` exactly when
some tendered fund item's denom differs from the stored destination denom;
`convert_tokens` likewise fails with `InvalidFunds` whenever some item's
denom differs; the check is universal over the list, so an empty funds
list passes it in both operations. -/
theorem funds_denom_validation (state : State) (info : MessageInfo) (amt : Nat) :
    (deposit_dest_tokens state info = Except.error ContractError.InvalidFunds ↔
      ∃ f ∈ info.funds, f.denom ≠ state.dest_ic20_denom) ∧
    ((∃ f ∈ info.funds, f.denom ≠ state.dest_ic20_denom) →
      convert_tokens state info amt = Except.error ContractError.InvalidFunds) ∧
    (info.funds = [] →
      deposit_dest_tokens state info = Except.ok (state, Response.new) ∧
      convert_tokens state info 0 = Except.ok (state,
        Response.new.add_message (get_bank_transfer_to_msg info.sender
          state.dest_ic20_denom 0))) := by
  by_cases hall : info.funds.all (fun f => f.denom == state.dest_ic20_denom) = true
  · have hno : ¬ ∃ f ∈ info.funds, f.denom ≠ state.dest_ic20_denom := by
      rw [List.all_eq_true] at hall
      rintro ⟨f, hf, hne⟩
      exact hne (by simpa using hall f hf)
    refine ⟨?_, fun h => absurd h hno, fun hnil => ?_⟩
    · simp only [deposit_dest_tokens, hall, Bool.not_true]
      constructor
      · intro herr
        cases herr
      · intro h
        exact absurd h hno
    · constructor
      · simp [deposit_dest_tokens, hall]
      · have hs : ((info.funds.filter (fun c => c.denom == state.src_ic20_denom)).map
            (fun c => c.amount)).sum = 0 := by
          rw [hnil]
          rfl
        have := convert_tokens_ok state info 0 hall hs ⟨0⟩
          (calc_zero (10 * state.dest_ic20_decimals) state.src_ic20_decimals
            state.dest_ic20_decimals)
        simpa using this
  · have hex : ∃ f ∈ info.funds, f.denom ≠ state.dest_ic20_denom := by
      rw [Bool.not_eq_true, List.all_eq_false] at hall
      obtain ⟨f, hf, hne⟩ := hall
      exact ⟨f, hf, by simpa using hne⟩
    have hallf : info.funds.all (fun f => f.denom == state.dest_ic20_denom) = false :=
      Bool.not_eq_true _ |>.mp hall
    refine ⟨?_, fun _ => convert_tokens_denom_fail state info amt hallf, fun hnil => ?_⟩
    · simp only [deposit_dest_tokens, hallf, Bool.not_false]
      exact ⟨fun _ => hex, fun _ => rfl⟩
    · rw [hnil] at hallf
      cases hallf

/-- Witness for C6: one bad-denom list is rejected, the empty list is
accepted, by both operations. -/
theorem funds_denom_validation_witness :
    (deposit_dest_tokens ⟨0, "o", "d", 6, "s", 9⟩ ⟨"alice", [⟨"x", 5⟩]⟩ =
      Except.error ContractError.InvalidFunds) ∧
    (convert_tokens ⟨0, "o", "d", 6, "s", 9⟩ ⟨"alice", [⟨"x", 5⟩]⟩ 5 =
      Except.error ContractError.InvalidFunds) ∧
    (deposit_dest_tokens ⟨0, "o", "d", 6, "s", 9⟩ ⟨"alice", []⟩ =
      Except.ok (⟨0, "o", "d", 6, "s", 9⟩, Response.new)) :=
  ⟨(funds_denom_validation ⟨0, "o", "d", 6, "s", 9⟩ ⟨"alice", [⟨"x", 5⟩]⟩ 5).1.mpr
      ⟨⟨"x", 5⟩, by decide, by decide⟩,
   (funds_denom_validation ⟨0, "o", "d", 6, "s", 9⟩ ⟨"alice", [⟨"x", 5⟩]⟩ 5).2.1
      ⟨⟨"x", 5⟩, by decide, by decide⟩,
   ((funds_denom_validation ⟨0, "o", "d", 6, "s", 9⟩ ⟨"alice", []⟩ 0).2.2 rfl).1⟩

lemma wrap_i32_eq_self (x : Int) (hlo : -2147483648 ≤ x) (hhi : x ≤ 2147483647) :
    wrap_i32 x = x := by
  have e31 : (2 : Int) ^ 31 = 2147483648 := by norm_num
  have e32 : (2 : Int) ^ 32 = 4294967296 := by norm_num
  simp only [wrap_i32, I32_MOD, e31, e32]
  omega

lemma increment_n_count (n : Nat) : ∀ state : State,
    -2147483648 ≤ state.count → state.count + n ≤ 2147483647 →
    (increment_n state n).count = state.count + n := by
  induction n with
  | zero =>
      intro state _ _
      simp [increment_n]
  | succ m ih =>
      intro state hlo hhi
      have hc1 : state.count + 1 ≤ 2147483647 := by
        push_cast at hhi
        omega
      have hwrap : wrap_i32 (state.count + 1) = state.count + 1 :=
        wrap_i32_eq_self _ (by omega) hc1
      have hstate : state_after state (try_increment state) =
          { state with count := state.count + 1 } := by
        simp [state_after, try_increment, hwrap]
      rw [increment_n, hstate]
      have h2 := ih { state with count := state.count + 1 } (by simp; omega)
        (by simp; push_cast at hhi ⊢; omega)
      rw [h2]
      push_cast
      ring

/-- Claim C7: `try_reset` by any caller other than the recorded owner
fails with `Unauthorized` and leaves the state (so the counter)
unchanged; `try_reset` by the owner succeeds, and `query_count` on the
resulting state returns exactly the new count. -/
theorem try_reset_owner_gate (state : State) (info : MessageInfo) (c : Int) :
    (info.sender ≠ state.owner →
      try_reset state info c = Except.error ContractError.Unauthorized ∧
      state_after state (try_reset state info c) = state) ∧
    (info.sender = state.owner →
      ∃ s2 r, try_reset state info c = Except.ok (s2, r) ∧
        query_count s2 = Except.ok ⟨c⟩) := by
  constructor
  · intro hne
    have h : try_reset state info c = Except.error ContractError.Unauthorized := by
      simp [try_reset, hne]
    exact ⟨h, by rw [h]; rfl⟩
  · intro heq
    refine ⟨{ state with count := c }, Response.new.add_attribute "method" "reset", ?_, rfl⟩
    simp [try_reset, heq]

/-- Witness for C7: a stranger's reset is rejected, the owner's reset
lands and is visible through `query_count`. -/
theorem try_reset_owner_gate_witness :
    (try_reset ⟨0, "owner1", "d", 6, "s", 9⟩ ⟨"mallory", []⟩ 5 =
      Except.error ContractError.Unauthorized ∧
      state_after ⟨0, "owner1", "d", 6, "s", 9⟩
        (try_reset ⟨0, "owner1", "d", 6, "s", 9⟩ ⟨"mallory", []⟩ 5) =
        ⟨0, "owner1", "d", 6, "s", 9⟩) ∧
    (∃ s2 r, try_reset ⟨0, "owner1", "d", 6, "s", 9⟩ ⟨"owner1", []⟩ 5 =
      Except.ok (s2, r) ∧ query_count s2 = Except.ok ⟨5⟩) :=
  ⟨(try_reset_owner_gate ⟨0, "owner1", "d", 6, "s", 9⟩ ⟨"mallory", []⟩ 5).1 (by decide),
   (try_reset_owner_gate ⟨0, "owner1", "d", 6, "s", 9⟩ ⟨"owner1", []⟩ 5).2 rfl⟩

/-- Claim C8 counterexample: at the `i32` maximum the unchecked `+= 1`
wraps: one increment takes the counter from `2147483647` to
`-2147483648`, not to `2147483648`. -/
theorem increment_overflow_cex :
    increment_n ⟨2147483647, "o", "d", 6, "s", 9⟩ 1 =
      ⟨-2147483648, "o", "d", 6, "s", 9⟩ ∧
    ((-2147483648 : Int) ≠ 2147483647 + 1) := by
  exact ⟨rfl, by decide⟩

/-- Claim C8 (amended): for every state whose counter is a valid `i32`
and every `N` with `counter + N ≤ 2147483647` (no `i32` overflow),
`increment` always succeeds — it takes no caller and has no error path —
and `N` sequential increments raise the counter by exactly `N`. -/
theorem increment_n_adds_exactly (state : State) (n : Nat)
    (hlo : -2147483648 ≤ state.count)
    (hhi : state.count + n ≤ 2147483647) :
    (∃ s2 r, try_increment state = Except.ok (s2, r)) ∧
    (increment_n state n).count = state.count + n :=
  ⟨⟨_, _, rfl⟩, increment_n_count n state hlo hhi⟩

/-- Witness for C8's amended theorem: three increments from 17 give 20. -/
theorem increment_n_adds_exactly_witness :
    (∃ s2 r, try_increment ⟨17, "o", "d", 6, "s", 9⟩ = Except.ok (s2, r)) ∧
    (increment_n ⟨17, "o", "d", 6, "s", 9⟩ 3).count = 17 + (3 : Nat) :=
  increment_n_adds_exactly ⟨17, "o", "d", 6, "s", 9⟩ 3 (by decide) (by decide)

/-- Claim C9: `deposit_dest_tokens` and `convert_tokens` never change the
persistent state, whether they succeed or fail; a successful deposit has
an empty response, and a successful conversion's only observable effect
is the single bank-transfer message of the computed output amount in the
destination denom to the caller. -/
theorem deposit_convert_frame (state : State) (info : MessageInfo) (amt : Nat) :
    state_after state (deposit_dest_tokens state info) = state ∧
    state_after state (convert_tokens state info amt) = state ∧
    (∀ s2 r, deposit_dest_tokens state info = Except.ok (s2, r) →
      s2 = state ∧ r = Response.new) ∧
    (∀ s2 r, convert_tokens state info amt = Except.ok (s2, r) →
      s2 = state ∧ ∃ out,
        calculate_token_conversion_output
          (((info.funds.filter (fun c => c.denom == state.src_ic20_denom)).map
            (fun c => c.amount)).sum) (10 * state.dest_ic20_decimals)
          state.src_ic20_decimals state.dest_ic20_decimals = Except.ok out ∧
        r = Response.new.add_message (get_bank_transfer_to_msg info.sender
          state.dest_ic20_denom out.amount)) := by
  have hdep : state_after state (deposit_dest_tokens state info) = state ∧
      (∀ s2 r, deposit_dest_tokens state info = Except.ok (s2, r) →
        s2 = state ∧ r = Response.new) := by
    by_cases hall : info.funds.all (fun f => f.denom == state.dest_ic20_denom) = true
    · have h : deposit_dest_tokens state info = Except.ok (state, Response.new) := by
        simp [deposit_dest_tokens, hall]
      rw [h]
      refine ⟨rfl, fun s2 r he => ?_⟩
      simp only [Except.ok.injEq, Prod.mk.injEq] at he
      exact ⟨he.1.symm, he.2.symm⟩
    · have hallf : info.funds.all (fun f => f.denom == state.dest_ic20_denom) = false :=
        Bool.not_eq_true _ |>.mp hall
      have h : deposit_dest_tokens state info = Except.error ContractError.InvalidFunds := by
        simp [deposit_dest_tokens, hallf]
      rw [h]
      exact ⟨rfl, fun s2 r he => Except.noConfusion he⟩
  have hcvt : state_after state (convert_tokens state info amt) = state ∧
      (∀ s2 r, convert_tokens state info amt = Except.ok (s2, r) →
        s2 = state ∧ ∃ out,
          calculate_token_conversion_output
            (((info.funds.filter (fun c => c.denom == state.src_ic20_denom)).map
              (fun c => c.amount)).sum) (10 * state.dest_ic20_decimals)
            state.src_ic20_decimals state.dest_ic20_decimals = Except.ok out ∧
          r = Response.new.add_message (get_bank_transfer_to_msg info.sender
            state.dest_ic20_denom out.amount)) := by
    by_cases hall : info.funds.all (fun f => f.denom == state.dest_ic20_denom) = true
    · by_cases hs : ((info.funds.filter (fun c => c.denom == state.src_ic20_denom)).map
          (fun c => c.amount)).sum = amt
      · obtain ⟨out, hout⟩ := calc_is_ok amt (10 * state.dest_ic20_decimals)
          state.src_ic20_decimals state.dest_ic20_decimals
        have h := convert_tokens_ok state info amt hall hs out hout
        rw [h]
        refine ⟨rfl, fun s2 r he => ?_⟩
        simp only [Except.ok.injEq, Prod.mk.injEq] at he
        refine ⟨he.1.symm, out, ?_, he.2.symm⟩
        rw [hs]
        exact hout
      · have h := convert_tokens_sum_fail state info amt hall hs
        rw [h]
        exact ⟨rfl, fun s2 r he => Except.noConfusion he⟩
    · have hallf : info.funds.all (fun f => f.denom == state.dest_ic20_denom) = false :=
        Bool.not_eq_true _ |>.mp hall
      have h := convert_tokens_denom_fail state info amt hallf
      rw [h]
      exact ⟨rfl, fun s2 r he => Except.noConfusion he⟩
  exact ⟨hdep.1, hcvt.1, hdep.2, hcvt.2⟩

/-- Witness for C9 at a concrete state and funds list. -/
theorem deposit_convert_frame_witness :
    state_after ⟨0, "o", "d", 6, "s", 9⟩
      (convert_tokens ⟨0, "o", "d", 6, "s", 9⟩ ⟨"alice", [⟨"d", 5⟩]⟩ 0) =
      ⟨0, "o", "d", 6, "s", 9⟩ :=
  (deposit_convert_frame ⟨0, "o", "d", 6, "s", 9⟩ ⟨"alice", [⟨"d", 5⟩]⟩ 0).2.1

/-- Claim C10: when the stored source denom differs from the destination
denom, every `convert_tokens` call with a nonzero declared amount fails
with `InvalidFunds` (any fund item that could count toward the source sum
is already rejected by the all-destination-denom check, so the sum is
always zero), and a successful call can only have declared amount zero
and emits a zero-amount transfer. -/
theorem distinct_denoms_only_zero (state : State) (info : MessageInfo) (amt : Nat)
    (hne : state.src_ic20_denom ≠ state.dest_ic20_denom) :
    (amt ≠ 0 → convert_tokens state info amt = Except.error ContractError.InvalidFunds) ∧
    (∀ s2 r, convert_tokens state info amt = Except.ok (s2, r) →
      amt = 0 ∧ r = Response.new.add_message (get_bank_transfer_to_msg info.sender
        state.dest_ic20_denom 0)) := by
  by_cases hall : info.funds.all (fun f => f.denom == state.dest_ic20_denom) = true
  · have hfil : info.funds.filter (fun c => c.denom == state.src_ic20_denom) = [] := by
      rw [List.filter_eq_nil_iff]
      intro c hc
      rw [List.all_eq_true] at hall
      have hd : c.denom = state.dest_ic20_denom := by simpa using hall c hc
      simp only [hd, beq_iff_eq]
      exact fun h => hne h.symm
    have hsum0 : ((info.funds.filter (fun c => c.denom == state.src_ic20_denom)).map
        (fun c => c.amount)).sum = 0 := by
      rw [hfil]
      rfl
    by_cases hz : amt = 0
    · subst hz
      have hok := convert_tokens_ok state info 0 hall hsum0 ⟨0⟩
        (calc_zero (10 * state.dest_ic20_decimals) state.src_ic20_decimals
          state.dest_ic20_decimals)
      refine ⟨fun h => absurd rfl h, fun s2 r he => ?_⟩
      rw [hok] at he
      simp only [Except.ok.injEq, Prod.mk.injEq] at he
      exact ⟨rfl, he.2.symm⟩
    · have herr := convert_tokens_sum_fail state info amt hall
        (by rw [hsum0]; exact fun h => hz h.symm)
      refine ⟨fun _ => herr, fun s2 r he => ?_⟩
      rw [herr] at he
      exact Except.noConfusion he
  · have hallf : info.funds.all (fun f => f.denom == state.dest_ic20_denom) = false :=
      Bool.not_eq_true _ |>.mp hall
    have herr := convert_tokens_denom_fail state info amt hallf
    refine ⟨fun _ => herr, fun s2 r he => ?_⟩
    rw [herr] at he
    exact Except.noConfusion he

/-- Witness for C10: with distinct denoms a declared amount of 1 is
rejected as `InvalidFunds`. -/
theorem distinct_denoms_only_zero_witness :
    convert_tokens ⟨0, "o", "d", 6, "s", 9⟩ ⟨"alice", [⟨"d", 5⟩]⟩ 1 =
      Except.error ContractError.InvalidFunds :=
  (distinct_denoms_only_zero ⟨0, "o", "d", 6, "s", 9⟩ ⟨"alice", [⟨"d", 5⟩]⟩ 1
    (by decide)).1 (by decide)

end Ics20Conversion
